import Mathlib

/-!
Shallow embedding of the GEDPro auth core and tenant-scoped candidate service.

The definitions below are translated from the TypeScript source:
- `src/src/auth/auth.service.ts` (`AuthService`: `login`, `saveRefresh`,
  `validateGenerateTokens`, `generateTokens`),
- `src/src/users/users.service.ts` (`UserService.findById`, `findByEmail`,
  `updateUser` restricted to the `refreshTokenHash` field, the only field the
  auth core ever updates),
- `src/src/config/config.ts` (the `config` object built from the process
  environment),
- `src/unnamed/part_000` (`AccessTokenStrategy.validate`),
- `src/src/common/interceptors/tenancy.interceptor.ts` (`TenancyInterceptor`),
- the `TenantContextService` getters (`src/src/common/pipes/zod-validation.pipe.ts`),
- `src/src/modules/candidates/candidate.service.ts` (`CandidateService.create`,
  `findAll`, `findById`).

Modelling conventions:
- JS numbers that are integral in the source (ids, epoch milliseconds, JWT
  `exp` claims in seconds) become `Int`/`Nat`.
- Signed-token strings are modelled by the inductive `TokenStr`, which keeps
  the data a compact JWT string determines: the claims payload, `iat`, `exp`
  and the signing secret.  Arbitrary non-JWT strings are `TokenStr.malformed`.
- `bcrypt.hash`/`bcrypt.compare` are salted one-way functions; they enter the
  embedding as abstract function parameters (`bhash`, `tokCompare`,
  `pwCompare`), so nothing about the hash is assumed beyond what each theorem
  states as a hypothesis.
- Thrown Nest exceptions become `Except.error` values of `AppError`; every
  stateful operation returns its result together with the final store, so a
  thrown error leaves the (unrolled-back) store visible in the statement.
- The user store tracks an append-only `writeLog` of `refreshTokenHash`
  updates, so "performs no store write" is expressible as log preservation.
-/

namespace GEDPro

/-- Permession entity (`permession.entity.ts`): the name is what the access
strategy projects out. -/
structure Permession where
  name : String
  deriving DecidableEq

/-- Role entity (`role.entity.ts`): name plus its permessions. -/
structure Role where
  name : String
  permessions : List Permession
  deriving DecidableEq

/-- User entity (`user.entity.ts`).  The eager `organization` relation is kept
as the organization id (`none` when the user has no organization row). -/
structure User where
  id : Int
  full_name : String
  email : String
  password : String
  refreshTokenHash : Option String
  role : Role
  organization : Option Int
  deriving DecidableEq

/-- Nest exception taxonomy used by the embedded code. -/
inductive AppError where
  | badRequest (msg : String)
  | unauthorized (msg : String)
  | notFound (msg : String)
  | internalError (msg : String)
  deriving DecidableEq

/-- HTTP status each Nest exception class maps to. -/
def httpStatus : AppError → Nat
  | .badRequest _ => 400
  | .unauthorized _ => 401
  | .notFound _ => 404
  | .internalError _ => 500

/-- Claims payload the `AuthService` signs.  `organizationId := none` models a
payload object without an `organizationId` key. -/
structure JwtClaims where
  sub : Int
  role : String
  organizationId : Option Int
  deriving DecidableEq

/-- Model of a JWT string: a well-formed signed token determines its claims,
`iat`, optional `exp` and the signing secret; anything else is `malformed`. -/
inductive TokenStr where
  | jwt (claims : JwtClaims) (iat : Nat) (exp : Nat) (secret : String)
  | jwtNoExp (claims : JwtClaims) (iat : Nat) (secret : String)
  | malformed (s : String)
  deriving DecidableEq

/-- What `jwt.decode` exposes of a decoded payload here: the `exp` claim
(seconds since epoch), when present. -/
structure Decoded where
  exp : Option Nat
  deriving DecidableEq

/-- `jwt.decode(token)`: no signature check; `none` models the `null` result
on a malformed token. -/
def jwtDecode : TokenStr → Option Decoded
  | .jwt _ _ e _ => some ⟨some e⟩
  | .jwtNoExp _ _ _ => some ⟨none⟩
  | .malformed _ => none

/-- The JS truthiness guard `decoded && decoded.exp` of
`validateGenerateTokens`: yields the `exp` value exactly when the decode
succeeded, the payload has an `exp` key and its value is non-zero (`0` is
falsy in JS). -/
def decodedExp : Option Decoded → Option Nat
  | some ⟨some e⟩ => if e = 0 then none else some e
  | _ => none

/-- `jwt.sign(payload, {secret, expiresIn})` at current time `nowMs`
(milliseconds): `iat` is `floor(nowMs / 1000)` and `exp` is `iat` plus the
`expiresIn` span in seconds. -/
def jwtSign (claims : JwtClaims) (secret : String) (expiresInSec : Nat)
    (nowMs : Nat) : TokenStr :=
  .jwt claims (nowMs / 1000) (nowMs / 1000 + expiresInSec) secret

/-- Secret a well-formed token was signed with. -/
def tokenSecret : TokenStr → Option String
  | .jwt _ _ _ s => some s
  | .jwtNoExp _ _ s => some s
  | .malformed _ => none

/-- Claims payload of a well-formed token. -/
def tokenClaims : TokenStr → Option JwtClaims
  | .jwt c _ _ _ => some c
  | .jwtNoExp c _ _ => some c
  | .malformed _ => none

/-- The `exp` claim of a token, when present. -/
def tokenExp : TokenStr → Option Nat
  | .jwt _ _ e _ => some e
  | _ => none

/-- The `iat` claim of a well-formed token. -/
def tokenIat : TokenStr → Option Nat
  | .jwt _ i _ _ => some i
  | .jwtNoExp _ i _ => some i
  | .malformed _ => none

/-- The two JWT secrets of `config.ts`, each one configuration entry. -/
structure Config where
  JWT_ACCESS_SECRET : String
  JWT_REFRESH_TOKEN : String
  deriving DecidableEq

/-- The `config` object of `config.ts`, built by reading the two distinct
environment variables `JWT_ACCESS_SECRET` and `JWT_REFRESH_TOKEN` (the
`as string` cast on an absent variable is modelled by `getD ""`). -/
def configOf (env : String → Option String) : Config :=
  { JWT_ACCESS_SECRET := (env "JWT_ACCESS_SECRET").getD ""
    JWT_REFRESH_TOKEN := (env "JWT_REFRESH_TOKEN").getD "" }

/-- The access/refresh pair returned by `generateTokens`. -/
structure TokenPair where
  accessToken : TokenStr
  refreshToken : TokenStr
  deriving DecidableEq

/-- The user store seen through `UserService`, with an append-only log of
every `refreshTokenHash` update (each entry: user id and new hash). -/
structure Store where
  users : List User
  writeLog : List (Int × String)
  deriving DecidableEq

/-- `UserService.findByEmail`: first user with the given email, else `null`. -/
def findByEmail (st : Store) (email : String) : Option User :=
  st.users.find? (fun u => u.email == email)

/-- `UserService.findById`: throws `NotFoundException` when no user has the
id. -/
def findById (st : Store) (id : Int) : Except AppError User :=
  match st.users.find? (fun u => u.id == id) with
  | some u => .ok u
  | none => .error (.notFound "No user found with this Id")

/-- `UserService.updateUser(user_id, { refreshTokenHash })`: re-checks the id
via `findById`, then updates the single field and logs the write. -/
def updateRefreshTokenHash (st : Store) (user_id : Int) (h : String) :
    Except AppError Unit × Store :=
  match findById st user_id with
  | .error e => (.error e, st)
  | .ok _ =>
      (.ok (),
       { users := st.users.map (fun u =>
           if u.id == user_id then { u with refreshTokenHash := some h } else u)
         writeLog := st.writeLog ++ [(user_id, h)] })

/-- `AuthService.generateTokens(id, role)`: signs the payload `{sub: id, role}`
(no `organizationId` key) with the access secret for 15 minutes and with the
refresh secret for 7 days. -/
def generateTokens (cfg : Config) (nowMs : Nat) (id : Int) (role : String) :
    TokenPair :=
  let payload : JwtClaims := { sub := id, role := role, organizationId := none }
  { accessToken := jwtSign payload cfg.JWT_ACCESS_SECRET (15 * 60) nowMs
    refreshToken := jwtSign payload cfg.JWT_REFRESH_TOKEN (7 * 24 * 60 * 60) nowMs }

/-- `AuthService.saveRefresh(userId, refreshToken)`: bcrypt-hash the refresh
token (abstract salted hash `bhash`) and store it via `updateUser`. -/
def saveRefresh (bhash : TokenStr → String) (st : Store) (userId : Int)
    (refreshToken : TokenStr) : Except AppError Unit × Store :=
  updateRefreshTokenHash st userId (bhash refreshToken)

/-- The value `AuthService.login` resolves with on success. -/
structure LoginResult where
  full_name : String
  email : String
  role : String
  tokens : TokenPair
  deriving DecidableEq

/-- `AuthService.login(email, password)`: `pwCompare` is `bcrypt.compare` on
the presented password and the stored hash.  Both the unknown-email case and
the wrong-password case reach the same
`throw new BadRequestException('Invalid credentials')`. -/
def login (pwCompare : String → String → Bool) (bhash : TokenStr → String)
    (cfg : Config) (nowMs : Nat) (st : Store) (email password : String) :
    Except AppError LoginResult × Store :=
  match findByEmail st email with
  | some user =>
      if pwCompare password user.password then
        let tokens := generateTokens cfg nowMs user.id user.role.name
        match saveRefresh bhash st user.id tokens.refreshToken with
        | (.error e, st') => (.error e, st')
        | (.ok _, st') =>
            (.ok { full_name := user.full_name, email := user.email
                   role := user.role.name, tokens := tokens }, st')
      else (.error (.badRequest "Invalid credentials"), st)
  | none => (.error (.badRequest "Invalid credentials"), st)

/-- `AuthService.validateGenerateTokens(user_id, refreshToken)`.  `tokCompare`
is `bcrypt.compare` on the presented token and the stored hash.  The near
expiry threshold is the literal `1 * 24 * 60 * 60 * 1000` ms of the source
(one day, despite the variable name `fiveDaysMs`). -/
def validateGenerateTokens (tokCompare : TokenStr → String → Bool)
    (bhash : TokenStr → String) (cfg : Config) (nowMs : Nat) (st : Store)
    (user_id : Int) (refreshToken : TokenStr) :
    Except AppError TokenPair × Store :=
  match findById st user_id with
  | .error e => (.error e, st)
  | .ok user =>
      match user.refreshTokenHash with
      | none => (.error (.unauthorized "You need to login"), st)
      | some storedHash =>
          if tokCompare refreshToken storedHash then
            match decodedExp (jwtDecode refreshToken) with
            | some exp =>
                if (exp * 1000 : Int) - (nowMs : Int) ≤ 1 * 24 * 60 * 60 * 1000 then
                  let tokens := generateTokens cfg nowMs user.id user.role.name
                  match saveRefresh bhash st user.id tokens.refreshToken with
                  | (.error e, st') => (.error e, st')
                  | (.ok _, st') => (.ok tokens, st')
                else
                  let tokens := generateTokens cfg nowMs user.id user.role.name
                  (.ok { accessToken := tokens.accessToken
                         refreshToken := refreshToken }, st)
            | none =>
                let tokens := generateTokens cfg nowMs user.id user.role.name
                (.ok { accessToken := tokens.accessToken
                       refreshToken := refreshToken }, st)
          else (.error (.unauthorized "You need to login"), st)

/-- Verified access-token payload handed to `AccessTokenStrategy.validate`. -/
structure AccessPayload where
  sub : Int
  full_name : String
  email : String
  role : String
  organizationId : Option Int
  deriving DecidableEq

/-- The object `AccessTokenStrategy.validate` returns (which the pipeline
attaches as `request.user`).  `organizationId := none` models the absence of
an `organizationId` key on the returned object literal. -/
structure ValidatedUser where
  id : Int
  full_name : String
  email : String
  role : String
  organizationId : Option Int
  permessions : List String
  deriving DecidableEq

/-- `AccessTokenStrategy.validate(payload)` (`src/unnamed/part_000`):
re-fetches the user by the verified `sub` and projects id, name, email, role
name and permession names.  The returned object literal has no
`organizationId` key, hence `organizationId := none`. -/
def accessTokenValidate (st : Store) (payload : AccessPayload) :
    Except AppError ValidatedUser :=
  match findById st payload.sub with
  | .error e => .error e
  | .ok user =>
      .ok { id := user.id, full_name := user.full_name, email := user.email
            role := user.role.name
            organizationId := none
            permessions := user.role.permessions.map (fun ele => ele.name) }

/-- The request-scoped tenant context (`TenantContextData`). -/
structure TenantContextData where
  organizationId : Int
  userId : Int
  role : String
  deriving DecidableEq

/-- `TenancyInterceptor.intercept`: with no `request.user` it skips context
installation; with a user whose `organizationId` is absent (the JS guard
`!user.organizationId && user.organizationId !== 0`) it throws
`UnauthorizedException`; otherwise it runs the handler inside the tenant
context built from the user.  The result is the installed context. -/
def tenancyIntercept (user : Option ValidatedUser) :
    Except AppError (Option TenantContextData) :=
  match user with
  | none => .ok none
  | some u =>
      match u.organizationId with
      | none =>
          .error (.unauthorized "User is not associated with any organization")
      | some orgId =>
          .ok (some { organizationId := orgId, userId := u.id, role := u.role })

/-- `TenantContextService.getOrganizationId`: throws when no context is
active. -/
def getOrganizationId (ctx : Option TenantContextData) : Except AppError Int :=
  match ctx with
  | none =>
      .error (.internalError
        "No tenant context available. Ensure TenancyInterceptor is applied.")
  | some c => .ok c.organizationId

/-- `TenantContextService.getUserId`: throws when no context is active. -/
def getUserId (ctx : Option TenantContextData) : Except AppError Int :=
  match ctx with
  | none => .error (.internalError "No tenant context available.")
  | some c => .ok c.userId

/-- Candidate hiring states (`candidate.entity.ts`). -/
inductive CandidateState where
  | NEW
  | PRESCREENED
  | INTERVIEW
  | OFFER
  | HIRED
  | REJECTED
  deriving DecidableEq

/-- Candidate entity (`candidate.entity.ts`); `createdAt` is kept as epoch
milliseconds. -/
structure Candidate where
  id : Int
  firstName : String
  lastName : String
  email : String
  phone : Option String
  state : CandidateState
  position : Option String
  notes : Option String
  createdAt : Nat
  organizationId : Int
  deriving DecidableEq

/-- State-history row (`state-history.entity.ts`). -/
structure StateHistoryEntry where
  candidateId : Int
  fromState : CandidateState
  toState : CandidateState
  changedById : Int
  notes : Option String
  deriving DecidableEq

/-- The candidate repository plus history repository; `nextId` models the
generated primary key of the next `save`. -/
structure CandidateDB where
  candidates : List Candidate
  history : List StateHistoryEntry
  nextId : Int
  deriving DecidableEq

/-- `CreateCandidateDTO` (`candidate.schema.ts`). -/
structure CreateCandidateDTO where
  firstName : String
  lastName : String
  email : String
  phone : Option String
  position : Option String
  notes : Option String
  deriving DecidableEq

/-- `ListCandidatesQueryDTO` (`candidate.schema.ts`). -/
structure ListCandidatesQueryDTO where
  state : Option CandidateState
  search : Option String
  page : Nat
  limit : Nat
  deriving DecidableEq

/-- The paginated result of `CandidateService.findAll`. -/
structure CandidatePage where
  data : List Candidate
  total : Nat
  page : Nat
  limit : Nat
  deriving DecidableEq

/-- TypeORM `Like('%pat%')` on a string column: substring containment. -/
def likeContains (pat s : String) : Bool :=
  decide (List.IsInfix pat.data s.data)

/-- The TypeORM `where` clause `CandidateService.findAll` builds: always
`organizationId`, plus `state` when given; a `search` replaces the email
condition with `Like('%search%')`. -/
def findAllWhere (organizationId : Int) (query : ListCandidatesQueryDTO)
    (c : Candidate) : Bool :=
  c.organizationId == organizationId
    && (match query.state with
        | some s => c.state == s
        | none => true)
    && (match query.search with
        | some s => likeContains s c.email
        | none => true)

/-- `CandidateService.create(dto)`: reads the ambient tenant context, rejects
a duplicate email inside the organization, saves the candidate stamped with
the context's `organizationId` in state `NEW`, then logs the initial state
change (which reads the context's user id). -/
def candidateCreate (ctx : Option TenantContextData) (db : CandidateDB)
    (nowMs : Nat) (dto : CreateCandidateDTO) :
    Except AppError Candidate × CandidateDB :=
  match getOrganizationId ctx with
  | .error e => (.error e, db)
  | .ok organizationId =>
      match db.candidates.find? (fun c =>
          c.email == dto.email && c.organizationId == organizationId) with
      | some _ =>
          (.error (.badRequest "Candidate with this email already exists"), db)
      | none =>
          let saved : Candidate :=
            { id := db.nextId, firstName := dto.firstName
              lastName := dto.lastName, email := dto.email, phone := dto.phone
              state := .NEW, position := dto.position, notes := dto.notes
              createdAt := nowMs, organizationId := organizationId }
          let db' : CandidateDB :=
            { db with candidates := db.candidates ++ [saved]
                      nextId := db.nextId + 1 }
          match getUserId ctx with
          | .error e => (.error e, db')
          | .ok userId =>
              let hist : StateHistoryEntry :=
                { candidateId := saved.id, fromState := .NEW, toState := .NEW
                  changedById := userId, notes := some "Candidate created" }
              (.ok saved, { db' with history := db'.history ++ [hist] })

/-- `CandidateService.findAll(query)`: tenant-scoped filter, `createdAt`
descending order, then `skip ((page-1)*limit)` / `take limit`; `total` is the
count of all rows matching the filter. -/
def candidateFindAll (ctx : Option TenantContextData) (db : CandidateDB)
    (query : ListCandidatesQueryDTO) : Except AppError CandidatePage :=
  match getOrganizationId ctx with
  | .error e => .error e
  | .ok organizationId =>
      let filtered := db.candidates.filter (findAllWhere organizationId query)
      let ordered := filtered.mergeSort (fun a b => b.createdAt ≤ a.createdAt)
      .ok { data := (ordered.drop ((query.page - 1) * query.limit)).take query.limit
            total := filtered.length, page := query.page, limit := query.limit }

/-- `CandidateService.findById(id)`: looks the candidate up by id AND the
context's `organizationId`; a miss (including a candidate of another tenant)
is reported as the same `NotFoundException`. -/
def candidateFindById (ctx : Option TenantContextData) (db : CandidateDB)
    (id : Int) : Except AppError Candidate :=
  match getOrganizationId ctx with
  | .error e => .error e
  | .ok organizationId =>
      match db.candidates.find? (fun c =>
          c.id == id && c.organizationId == organizationId) with
      | some c => .ok c
      | none => .error (.notFound "Candidate not found")

/-! Concrete fixtures used by witnesses and counterexamples. -/

/-- Concrete admin role. -/
def roleAdmin : Role := { name := "admin", permessions := [⟨"read"⟩, ⟨"write"⟩] }

/-- Concrete user with an active refresh-token hash and organization 1. -/
def user1 : User :=
  { id := 1, full_name := "Test User", email := "test@example.com"
    password := "PH", refreshTokenHash := some "RH", role := roleAdmin
    organization := some 1 }

/-- Concrete config with two distinct secrets. -/
def cfg1 : Config := { JWT_ACCESS_SECRET := "as", JWT_REFRESH_TOKEN := "rs" }

/-- Concrete store holding only `user1`, with an empty write log. -/
def st1 : Store := { users := [user1], writeLog := [] }

/-- Bcrypt-compare model that accepts everything (the matching-hash case). -/
def bcTrue : TokenStr → String → Bool := fun _ _ => true

/-- Bcrypt-compare model that rejects everything (the mismatch case). -/
def bcFalse : TokenStr → String → Bool := fun _ _ => false

/-- Concrete deterministic bcrypt-hash model. -/
def bh1 : TokenStr → String := fun _ => "NEWHASH"

/-- A refresh token expiring 6 days from epoch (far from expiry at time 0). -/
def tokFar : TokenStr :=
  .jwt { sub := 1, role := "admin", organizationId := none } 0
    (6 * 24 * 60 * 60) "rs"

/-- A refresh token expiring 12 hours from epoch (near expiry at time 0). -/
def tokNear : TokenStr :=
  .jwt { sub := 1, role := "admin", organizationId := none } 0
    (12 * 60 * 60) "rs"

/-- A well-formed token whose `exp` claim is literally `0`. -/
def tokExpZero : TokenStr :=
  .jwt { sub := 1, role := "admin", organizationId := none } 0 0 "rs"

/-- Access-token payload carrying a (stale) `organizationId` claim of 99. -/
def payload5 : AccessPayload :=
  { sub := 1, full_name := "Test User", email := "test@example.com"
    role := "admin", organizationId := some 99 }

/-! Claim theorems. -/

/-- Helper: a successful `findById` pins the found user and its id. -/
theorem findById_ok_mem {st : Store} {user_id : Int} {user : User}
    (hfind : findById st user_id = .ok user) :
    st.users.find? (fun u => u.id == user_id) = some user ∧
    user.id = user_id := by
  have h1 : st.users.find? (fun u => u.id == user_id) = some user := by
    unfold findById at hfind
    cases hfq : st.users.find? (fun u => u.id == user_id) with
    | none => rw [hfq] at hfind; simp at hfind
    | some v =>
        rw [hfq] at hfind
        simp only [Except.ok.injEq] at hfind
        rw [hfind]
  exact ⟨h1, by simpa using List.find?_some h1⟩

/-- C2: if the stored `refreshTokenHash` matches the presented refresh token
and the decoded remaining lifetime exceeds the 1-day renewal threshold,
`validateGenerateTokens` returns the presented refresh token itself, paired
with a freshly signed access token, and the store (users and write log) is
completely unchanged. -/
theorem claim2_reuse_above_threshold
    (tokCompare : TokenStr → String → Bool) (bhash : TokenStr → String)
    (cfg : Config) (nowMs : Nat) (st : Store) (user_id : Int)
    (tok : TokenStr) (user : User) (storedHash : String) (e : Nat)
    (hfind : findById st user_id = .ok user)
    (hhash : user.refreshTokenHash = some storedHash)
    (hcmp : tokCompare tok storedHash = true)
    (hdec : jwtDecode tok = some ⟨some e⟩)
    (hfar : (1 * 24 * 60 * 60 * 1000 : Int) < (e * 1000 : Int) - (nowMs : Int)) :
    validateGenerateTokens tokCompare bhash cfg nowMs st user_id tok =
      (.ok { accessToken := (generateTokens cfg nowMs user.id user.role.name).accessToken
             refreshToken := tok }, st) := by
  have he0 : e ≠ 0 := by
    intro h
    subst h
    simp only [Nat.cast_zero, zero_mul] at hfar
    omega
  have hde : decodedExp (jwtDecode tok) = some e := by
    rw [hdec]
    simp [decodedExp, he0]
  simp only [validateGenerateTokens, hfind, hhash, hcmp, hde, if_true]
  rw [if_neg (not_le.mpr hfar)]

/-- C2 witness: concrete run of the above with a 6-day-out refresh token. -/
theorem claim2_witness :
    findById st1 1 = .ok user1 ∧
    user1.refreshTokenHash = some "RH" ∧
    bcTrue tokFar "RH" = true ∧
    jwtDecode tokFar = some ⟨some (6 * 24 * 60 * 60)⟩ ∧
    (1 * 24 * 60 * 60 * 1000 : Int) <
      ((6 * 24 * 60 * 60 : Nat) * 1000 : Int) - ((0 : Nat) : Int) ∧
    validateGenerateTokens bcTrue bh1 cfg1 0 st1 1 tokFar =
      (.ok { accessToken := (generateTokens cfg1 0 user1.id user1.role.name).accessToken
             refreshToken := tokFar }, st1) :=
  ⟨rfl, rfl, rfl, rfl, by decide,
   claim2_reuse_above_threshold bcTrue bh1 cfg1 0 st1 1 tokFar user1 "RH"
     (6 * 24 * 60 * 60) rfl rfl rfl rfl (by decide)⟩

/-- C3: with a loaded user, `validateGenerateTokens` fails with the 401
`UnauthorizedException` both when the stored `refreshTokenHash` is absent and
when the presented token does not match it, and in either case the store is
returned unchanged (no write). -/
theorem claim3_unauthorized_no_write
    (tokCompare : TokenStr → String → Bool) (bhash : TokenStr → String)
    (cfg : Config) (nowMs : Nat) (st : Store) (user_id : Int)
    (tok : TokenStr) (user : User)
    (hfind : findById st user_id = .ok user)
    (hfail : user.refreshTokenHash = none ∨
      ∃ storedHash, user.refreshTokenHash = some storedHash ∧
        tokCompare tok storedHash = false) :
    validateGenerateTokens tokCompare bhash cfg nowMs st user_id tok =
      (.error (.unauthorized "You need to login"), st) ∧
    httpStatus (.unauthorized "You need to login") = 401 := by
  refine ⟨?_, rfl⟩
  rcases hfail with hnone | ⟨storedHash, hsome, hcmp⟩
  · simp only [validateGenerateTokens, hfind, hnone]
  · simp [validateGenerateTokens, hfind, hsome, hcmp]

/-- C3 witness: concrete mismatch run (`bcFalse` rejects the token). -/
theorem claim3_witness :
    findById st1 1 = .ok user1 ∧
    (user1.refreshTokenHash = none ∨
      ∃ storedHash, user1.refreshTokenHash = some storedHash ∧
        bcFalse tokFar storedHash = false) ∧
    (validateGenerateTokens bcFalse bh1 cfg1 0 st1 1 tokFar =
      (.error (.unauthorized "You need to login"), st1) ∧
    httpStatus (.unauthorized "You need to login") = 401) :=
  ⟨rfl, Or.inr ⟨"RH", rfl, rfl⟩,
   claim3_unauthorized_no_write bcFalse bh1 cfg1 0 st1 1 tokFar user1 rfl
     (Or.inr ⟨"RH", rfl, rfl⟩)⟩

/-- C4: a login with an unknown email and a login with a known email but
non-matching password produce the identical externally visible outcome: the
same 400 `BadRequestException('Invalid credentials')`, with the store
unchanged in both cases. -/
theorem claim4_login_indistinguishable
    (pwCompare : String → String → Bool) (bhash : TokenStr → String)
    (cfg : Config) (nowMs : Nat) (st : Store)
    (email1 pwd1 email2 pwd2 : String) (u : User)
    (hnone : findByEmail st email1 = none)
    (hsome : findByEmail st email2 = some u)
    (hbad : pwCompare pwd2 u.password = false) :
    login pwCompare bhash cfg nowMs st email1 pwd1 =
      (.error (.badRequest "Invalid credentials"), st) ∧
    login pwCompare bhash cfg nowMs st email2 pwd2 =
      (.error (.badRequest "Invalid credentials"), st) ∧
    login pwCompare bhash cfg nowMs st email1 pwd1 =
      login pwCompare bhash cfg nowMs st email2 pwd2 ∧
    httpStatus (.badRequest "Invalid credentials") = 400 := by
  have h1 : login pwCompare bhash cfg nowMs st email1 pwd1 =
      (.error (.badRequest "Invalid credentials"), st) := by
    simp only [login, hnone]
  have h2 : login pwCompare bhash cfg nowMs st email2 pwd2 =
      (.error (.badRequest "Invalid credentials"), st) := by
    simp [login, hsome, hbad]
  exact ⟨h1, h2, h1.trans h2.symm, rfl⟩

/-- C4 witness: concrete unregistered email versus wrong password for
`user1`. -/
theorem claim4_witness :
    findByEmail st1 "nobody@example.com" = none ∧
    findByEmail st1 "test@example.com" = some user1 ∧
    (fun (_ _ : String) => false) "wrong" user1.password = false ∧
    (login (fun _ _ => false) bh1 cfg1 0 st1 "nobody@example.com" "pw" =
      (.error (.badRequest "Invalid credentials"), st1) ∧
    login (fun _ _ => false) bh1 cfg1 0 st1 "test@example.com" "wrong" =
      (.error (.badRequest "Invalid credentials"), st1) ∧
    login (fun _ _ => false) bh1 cfg1 0 st1 "nobody@example.com" "pw" =
      login (fun _ _ => false) bh1 cfg1 0 st1 "test@example.com" "wrong" ∧
    httpStatus (.badRequest "Invalid credentials") = 400) :=
  ⟨rfl, rfl, rfl,
   claim4_login_indistinguishable (fun _ _ => false) bh1 cfg1 0 st1
     "nobody@example.com" "pw" "test@example.com" "wrong" user1 rfl rfl rfl⟩

/-- C9: if the hash comparison succeeds but `jwt.decode` on the presented
token yields `null` or a payload without an `exp` claim,
`validateGenerateTokens` does not fail: it returns the presented refresh
token unchanged with a freshly signed access token and leaves the store
untouched. -/
theorem claim9_undecodable_reuse
    (tokCompare : TokenStr → String → Bool) (bhash : TokenStr → String)
    (cfg : Config) (nowMs : Nat) (st : Store) (user_id : Int)
    (tok : TokenStr) (user : User) (storedHash : String)
    (hfind : findById st user_id = .ok user)
    (hhash : user.refreshTokenHash = some storedHash)
    (hcmp : tokCompare tok storedHash = true)
    (hdec : jwtDecode tok = none ∨ jwtDecode tok = some ⟨none⟩) :
    validateGenerateTokens tokCompare bhash cfg nowMs st user_id tok =
      (.ok { accessToken := (generateTokens cfg nowMs user.id user.role.name).accessToken
             refreshToken := tok }, st) := by
  have hde : decodedExp (jwtDecode tok) = none := by
    rcases hdec with h | h <;> rw [h] <;> rfl
  simp only [validateGenerateTokens, hfind, hhash, hcmp, hde, if_true]

/-- C9 witness: concrete run on a malformed (undecodable) token string. -/
theorem claim9_witness :
    findById st1 1 = .ok user1 ∧
    user1.refreshTokenHash = some "RH" ∧
    bcTrue (.malformed "garbage") "RH" = true ∧
    (jwtDecode (.malformed "garbage") = none ∨
      jwtDecode (.malformed "garbage") = some ⟨none⟩) ∧
    validateGenerateTokens bcTrue bh1 cfg1 0 st1 1 (.malformed "garbage") =
      (.ok { accessToken := (generateTokens cfg1 0 user1.id user1.role.name).accessToken
             refreshToken := .malformed "garbage" }, st1) :=
  ⟨rfl, rfl, rfl, Or.inl rfl,
   claim9_undecodable_reuse bcTrue bh1 cfg1 0 st1 1 (.malformed "garbage")
     user1 "RH" rfl rfl rfl (Or.inl rfl)⟩

/-- C1 (amended): if the stored hash matches the presented refresh token, the
decoded `exp` claim is present and non-zero (the JS truthiness guard), and the
remaining lifetime is at most the 1-day threshold, then
`validateGenerateTokens` succeeds with a refresh token different from the
presented one, appends exactly one hash write for this user to the write log,
and every stored user with this id now carries the hash of the new refresh
token. -/
theorem claim1_amended_rotation
    (tokCompare : TokenStr → String → Bool) (bhash : TokenStr → String)
    (cfg : Config) (nowMs : Nat) (st : Store) (user_id : Int)
    (tok : TokenStr) (user : User) (storedHash : String) (e : Nat)
    (hfind : findById st user_id = .ok user)
    (hhash : user.refreshTokenHash = some storedHash)
    (hcmp : tokCompare tok storedHash = true)
    (hdec : jwtDecode tok = some ⟨some e⟩)
    (hne : e ≠ 0)
    (hnear : (e * 1000 : Int) - (nowMs : Int) ≤ 1 * 24 * 60 * 60 * 1000) :
    ∃ pair : TokenPair,
      (validateGenerateTokens tokCompare bhash cfg nowMs st user_id tok).1 =
        .ok pair ∧
      pair.refreshToken ≠ tok ∧
      (validateGenerateTokens tokCompare bhash cfg nowMs st user_id tok).2.writeLog =
        st.writeLog ++ [(user_id, bhash pair.refreshToken)] ∧
      ∀ u ∈ (validateGenerateTokens tokCompare bhash cfg nowMs st user_id tok).2.users,
        u.id = user_id → u.refreshTokenHash = some (bhash pair.refreshToken) := by
  obtain ⟨hfind', hid⟩ := findById_ok_mem hfind
  have hde : decodedExp (jwtDecode tok) = some e := by
    rw [hdec]
    simp [decodedExp, hne]
  have hrun : validateGenerateTokens tokCompare bhash cfg nowMs st user_id tok =
      (.ok (generateTokens cfg nowMs user.id user.role.name),
       { users := st.users.map (fun u =>
           if u.id == user.id then
             { u with
                 refreshTokenHash :=
                   some (bhash (generateTokens cfg nowMs user.id user.role.name).refreshToken) }
           else u)
         writeLog := st.writeLog ++
           [(user.id, bhash (generateTokens cfg nowMs user.id user.role.name).refreshToken)] }) := by
    simp only [validateGenerateTokens, hfind, hhash, hcmp, hde, if_true]
    rw [if_pos hnear]
    simp only [saveRefresh, updateRefreshTokenHash, hid, hfind]
  refine ⟨generateTokens cfg nowMs user.id user.role.name, ?_, ?_, ?_, ?_⟩
  · rw [hrun]
  · intro hEq
    rw [← hEq] at hdec
    simp only [generateTokens, jwtSign, jwtDecode, Option.some.injEq,
      Decoded.mk.injEq] at hdec
    omega
  · rw [hrun, hid]
  · rw [hrun]
    intro u hu huid
    rcases List.mem_map.mp hu with ⟨v, hv, rfl⟩
    by_cases hb : v.id == user.id
    · simp [hb]
    · have hbf : (v.id == user.id) = false := by simpa using hb
      simp only [hbf, Bool.false_eq_true, if_false] at huid ⊢
      exact absurd (huid.trans hid.symm) (by simpa using hbf)

/-- C1 witness: concrete renewal run with a 12-hour-out refresh token. -/
theorem claim1_witness :
    findById st1 1 = .ok user1 ∧
    user1.refreshTokenHash = some "RH" ∧
    bcTrue tokNear "RH" = true ∧
    jwtDecode tokNear = some ⟨some (12 * 60 * 60)⟩ ∧
    (12 * 60 * 60 : Nat) ≠ 0 ∧
    (((12 * 60 * 60 : Nat) * 1000 : Int) - ((0 : Nat) : Int) ≤
      1 * 24 * 60 * 60 * 1000) ∧
    (∃ pair : TokenPair,
      (validateGenerateTokens bcTrue bh1 cfg1 0 st1 1 tokNear).1 = .ok pair ∧
      pair.refreshToken ≠ tokNear ∧
      (validateGenerateTokens bcTrue bh1 cfg1 0 st1 1 tokNear).2.writeLog =
        st1.writeLog ++ [(1, bh1 pair.refreshToken)] ∧
      ∀ u ∈ (validateGenerateTokens bcTrue bh1 cfg1 0 st1 1 tokNear).2.users,
        u.id = 1 → u.refreshTokenHash = some (bh1 pair.refreshToken)) :=
  ⟨rfl, rfl, rfl, rfl, by decide, by decide,
   claim1_amended_rotation bcTrue bh1 cfg1 0 st1 1 tokNear user1 "RH"
     (12 * 60 * 60) rfl rfl rfl rfl (by decide) (by decide)⟩

/-- C1 counterexample: a presented token whose decoded `exp` claim is the
value 0 satisfies every hypothesis of the claim as stated (hash matches,
decode succeeds with an `exp` field, remaining lifetime 0 − 0 ≤ 1 day), yet
`validateGenerateTokens` takes the reuse path: it returns the presented
refresh token itself and performs no store write. -/
theorem claim1_counterexample :
    jwtDecode tokExpZero = some ⟨some 0⟩ ∧
    (((0 : Nat) * 1000 : Int) - ((0 : Nat) : Int) ≤ 1 * 24 * 60 * 60 * 1000) ∧
    findById st1 1 = .ok user1 ∧
    user1.refreshTokenHash = some "RH" ∧
    bcTrue tokExpZero "RH" = true ∧
    validateGenerateTokens bcTrue bh1 cfg1 0 st1 1 tokExpZero =
      (.ok { accessToken := (generateTokens cfg1 0 1 "admin").accessToken
             refreshToken := tokExpZero }, st1) :=
  ⟨rfl, by decide, rfl, rfl, rfl, rfl⟩

/-- C5 evaluation: for the live record `user1` (organization 1) and an access
payload claiming organization 99, `AccessTokenStrategy.validate` returns a
request user without any `organizationId` (neither the live record's 1 nor
the claim's 99), so `TenancyInterceptor` rejects the request with the 401
organization error instead of installing a tenant context. -/
theorem claim5_code_eval :
    user1.organization = some 1 ∧
    payload5.organizationId = some 99 ∧
    accessTokenValidate st1 payload5 =
      .ok { id := 1, full_name := "Test User", email := "test@example.com"
            role := "admin", organizationId := none
            permessions := ["read", "write"] } ∧
    tenancyIntercept (accessTokenValidate st1 payload5).toOption =
      .error (.unauthorized "User is not associated with any organization") ∧
    httpStatus (.unauthorized "User is not associated with any organization") =
      401 :=
  ⟨rfl, rfl, rfl, rfl, rfl⟩

/-- C7 evaluation: `generateTokens` signs the payload `{sub, role}` with no
`organizationId` key, for the access token and the refresh token alike, so
neither token carries a tenant id for any user and role. -/
theorem claim7_code_eval (cfg : Config) (nowMs : Nat) (id : Int)
    (role : String) :
    tokenClaims (generateTokens cfg nowMs id role).accessToken =
      some { sub := id, role := role, organizationId := none } ∧
    tokenClaims (generateTokens cfg nowMs id role).refreshToken =
      some { sub := id, role := role, organizationId := none } ∧
    (tokenClaims (generateTokens cfg nowMs id role).accessToken).bind
      (fun c => c.organizationId) = none ∧
    (tokenClaims (generateTokens cfg nowMs id role).refreshToken).bind
      (fun c => c.organizationId) = none :=
  ⟨rfl, rfl, rfl, rfl⟩

/-- C8: every issued access token is signed with the `JWT_ACCESS_SECRET`
configuration entry and expires 15 minutes after issuance, every refresh
token is signed with the `JWT_REFRESH_TOKEN` entry and expires 7 days after
issuance, and the two secrets are read from two distinct environment
variables. -/
theorem claim8_secrets_and_lifetimes (env : String → Option String)
    (nowMs : Nat) (id : Int) (role : String) :
    tokenSecret (generateTokens (configOf env) nowMs id role).accessToken =
      some ((env "JWT_ACCESS_SECRET").getD "") ∧
    tokenIat (generateTokens (configOf env) nowMs id role).accessToken =
      some (nowMs / 1000) ∧
    tokenExp (generateTokens (configOf env) nowMs id role).accessToken =
      some (nowMs / 1000 + 15 * 60) ∧
    tokenSecret (generateTokens (configOf env) nowMs id role).refreshToken =
      some ((env "JWT_REFRESH_TOKEN").getD "") ∧
    tokenIat (generateTokens (configOf env) nowMs id role).refreshToken =
      some (nowMs / 1000) ∧
    tokenExp (generateTokens (configOf env) nowMs id role).refreshToken =
      some (nowMs / 1000 + 7 * 24 * 60 * 60) ∧
    ("JWT_ACCESS_SECRET" == "JWT_REFRESH_TOKEN") = false :=
  ⟨rfl, rfl, rfl, rfl, rfl, rfl, by decide⟩

/-- Concrete candidate of organization 1. -/
def cand1 : Candidate :=
  { id := 10, firstName := "Ada", lastName := "Lovelace", email := "ada@org1.com"
    phone := none, state := .NEW, position := none, notes := none
    createdAt := 5, organizationId := 1 }

/-- Concrete candidate of the other organization 2. -/
def cand2 : Candidate :=
  { id := 20, firstName := "Bob", lastName := "Other", email := "bob@org2.com"
    phone := none, state := .NEW, position := none, notes := none
    createdAt := 6, organizationId := 2 }

/-- Concrete candidate repository holding one candidate per organization. -/
def db1 : CandidateDB := { candidates := [cand1, cand2], history := [], nextId := 30 }

/-- Concrete tenant context of organization 1. -/
def ctx1 : TenantContextData := { organizationId := 1, userId := 7, role := "admin" }

/-- Concrete creation DTO with a fresh email. -/
def dto1 : CreateCandidateDTO :=
  { firstName := "New", lastName := "Person", email := "new@org1.com"
    phone := none, position := none, notes := none }

/-- Concrete list query: defaults, no filters. -/
def query1 : ListCandidatesQueryDTO :=
  { state := none, search := none, page := 1, limit := 20 }

/-- C10: every `CandidateService` operation is scoped to the ambient tenant
context: a successfully created candidate is stamped with the context's
`organizationId`; every candidate `findAll` returns belongs to the context's
organization; a candidate `findById` returns belongs to the context's
organization; and when every candidate bearing the requested id belongs to a
different organization, `findById` answers the generic `NotFoundException`
(the operations `update`, `transitionState`, `getStateHistory` and `delete`
all begin with this `findById`). -/
theorem claim10_tenant_scoping
    (ctx : TenantContextData) (db : CandidateDB) (nowMs : Nat)
    (dto : CreateCandidateDTO) (query : ListCandidatesQueryDTO)
    (idA idB : Int) (c cA : Candidate) (res : CandidatePage)
    (hcreate : (candidateCreate (some ctx) db nowMs dto).1 = .ok c)
    (hlist : candidateFindAll (some ctx) db query = .ok res)
    (hbyid : candidateFindById (some ctx) db idA = .ok cA)
    (hforeign : ∀ x ∈ db.candidates, x.id = idB →
      x.organizationId ≠ ctx.organizationId) :
    c.organizationId = ctx.organizationId ∧
    (∀ x ∈ res.data, x.organizationId = ctx.organizationId) ∧
    cA.organizationId = ctx.organizationId ∧
    candidateFindById (some ctx) db idB =
      .error (.notFound "Candidate not found") := by
  refine ⟨?_, ?_, ?_, ?_⟩
  · simp only [candidateCreate, getOrganizationId, getUserId] at hcreate
    cases hdup : db.candidates.find? (fun x =>
        x.email == dto.email && x.organizationId == ctx.organizationId) with
    | some v => rw [hdup] at hcreate; simp at hcreate
    | none =>
        rw [hdup] at hcreate
        simp only [Except.ok.injEq] at hcreate
        rw [← hcreate]
  · simp only [candidateFindAll, getOrganizationId, Except.ok.injEq] at hlist
    intro x hx
    rw [← hlist] at hx
    have hx2 := List.mem_of_mem_drop (List.mem_of_mem_take hx)
    have hx3 := List.mem_mergeSort.mp hx2
    have hx4 := (List.mem_filter.mp hx3).2
    simp only [findAllWhere, Bool.and_eq_true, beq_iff_eq] at hx4
    exact hx4.1.1
  · simp only [candidateFindById, getOrganizationId] at hbyid
    cases hfq : db.candidates.find? (fun x =>
        x.id == idA && x.organizationId == ctx.organizationId) with
    | none => rw [hfq] at hbyid; simp at hbyid
    | some v =>
        rw [hfq] at hbyid
        simp only [Except.ok.injEq] at hbyid
        have hp := List.find?_some hfq
        rw [hbyid] at hp
        simp only [Bool.and_eq_true, beq_iff_eq] at hp
        exact hp.2
  · have hnone : db.candidates.find? (fun x =>
        x.id == idB && x.organizationId == ctx.organizationId) = none := by
      rw [List.find?_eq_none]
      intro x hx
      simp only [Bool.and_eq_true, beq_iff_eq, not_and]
      intro hidx
      exact hforeign x hx hidx
    simp only [candidateFindById, getOrganizationId, hnone]

/-- C10 witness: concrete two-tenant repository; context of organization 1
creates a candidate stamped with organization 1, lists only the organization-1
candidate, finds candidate 10, and gets `NotFound` for candidate 20 of
organization 2. -/
theorem claim10_witness :
    (candidateCreate (some ctx1) db1 9 dto1).1 =
      .ok { id := 30, firstName := "New", lastName := "Person"
            email := "new@org1.com", phone := none, state := .NEW
            position := none, notes := none, createdAt := 9
            organizationId := 1 } ∧
    candidateFindAll (some ctx1) db1 query1 =
      .ok { data := [cand1], total := 1, page := 1, limit := 20 } ∧
    candidateFindById (some ctx1) db1 10 = .ok cand1 ∧
    (∀ x ∈ db1.candidates, x.id = 20 → x.organizationId ≠ ctx1.organizationId) ∧
    ({ id := 30, firstName := "New", lastName := "Person"
       email := "new@org1.com", phone := none, state := .NEW
       position := none, notes := none, createdAt := 9
       organizationId := 1 } : Candidate).organizationId = ctx1.organizationId ∧
    (∀ x ∈ ({ data := [cand1], total := 1, page := 1
              limit := 20 } : CandidatePage).data,
      x.organizationId = ctx1.organizationId) ∧
    cand1.organizationId = ctx1.organizationId ∧
    candidateFindById (some ctx1) db1 20 =
      .error (.notFound "Candidate not found") := by
  have hset : candidateFindAll (some ctx1) db1 query1 =
      .ok { data := [cand1], total := 1, page := 1, limit := 20 } := by
    simp [candidateFindAll, getOrganizationId, db1, query1, findAllWhere,
      cand1, cand2, ctx1, List.filter, List.mergeSort_singleton]
  refine ⟨rfl, hset, rfl, by decide, ?_⟩
  exact claim10_tenant_scoping ctx1 db1 9 dto1 query1 10 20 _ cand1
    { data := [cand1], total := 1, page := 1, limit := 20 }
    rfl hset rfl (by decide)

end GEDPro
